import Mathlib

/-!
Verification of the helix vsock-delegated video encoder core: the wire
codec, the client-side submission pipeline of
`desktop/gst-vsockenc/gstvsockenc.c`, and the host-side session dispatch
of `for-mac/qemu-helix/helix-frame-export.c`.

Bytes on the wire are modelled as `List Nat` (each entry one octet),
fixed-width machine integers as `Nat`/`Int` with explicit wrapping where
the C code truncates, and the transport as an explicit byte stream with
an exact-read primitive that fails when the stream ends early.
-/

namespace Helix

/-! Protocol constants, from gstvsockenc.h and helix-frame-export.h. -/

def HELIX_MSG_MAGIC : Nat := 0x52465848

def HELIX_MSG_FRAME_REQUEST : Nat := 0x01

def HELIX_MSG_FRAME_RESPONSE : Nat := 0x02

def HELIX_MSG_KEYFRAME_REQ : Nat := 0x03

def HELIX_MSG_CONFIG_REQ : Nat := 0x04

def HELIX_MSG_CONFIG_RESP : Nat := 0x05

def HELIX_MSG_PING : Nat := 0x10

def HELIX_MSG_PONG : Nat := 0x11

def HELIX_MSG_ERROR : Nat := 0xFF

def HELIX_FORMAT_BGRA8888 : Nat := 0x34325241

def HELIX_FORMAT_RGBA8888 : Nat := 0x34324241

def HELIX_FORMAT_NV12 : Nat := 0x3231564E

/-- Modelled from the spec: the constant `HELIX_FLAG_PIXEL_DATA` is used by
gstvsockenc.c but its definition is not among the provided sources; the spec
describes the flags field as a bitfield whose bit 0 means "payload carries
raw pixel data inline". -/
def HELIX_FLAG_PIXEL_DATA : Nat := 0x01

def HELIX_ERR_OK : Int := 0

def HELIX_ERR_INVALID_MSG : Int := -1

def HELIX_ERR_RESOURCE_NOT_FOUND : Int := -2

def HELIX_ERR_NOT_METAL_TEXTURE : Int := -3

def HELIX_ERR_NO_IOSURFACE : Int := -4

def HELIX_ERR_ENCODE_FAILED : Int := -5

def HELIX_ERR_NOT_CONFIGURED : Int := -6

def HELIX_ERR_INTERNAL : Int := -99

/-! Byte-level helpers: little-endian decoding and encoding, exact reads,
and two's-complement truncation to the fixed widths the C code uses. -/

/-- Little-endian value of a byte list (least significant byte first). -/
def deLE : List Nat → Nat
  | [] => 0
  | b :: bs => b % 256 + 256 * deLE bs

/-- The `n` little-endian bytes of `v`. -/
def leBytes : Nat → Nat → List Nat
  | 0, _ => []
  | Nat.succ n, v => v % 256 :: leBytes n (v / 256)

/-- Model of `read_exact(fd, buf, n)` over an EOF-terminated byte stream:
returns the `n` bytes read and the rest of the stream, or fails after
consuming everything available when fewer than `n` bytes remain. -/
def readExact (bs : List Nat) (n : Nat) : Option (List Nat) × List Nat :=
  if n ≤ bs.length then (some (bs.take n), bs.drop n) else (none, [])

/-- Two's-complement truncation of an integer to 32 bits (a C `(int32_t)` cast). -/
def wrap32 (x : Int) : Int := (x + 2 ^ 31) % 2 ^ 32 - 2 ^ 31

/-- Two's-complement truncation of an integer to 64 bits. -/
def wrap64 (x : Int) : Int := (x + 2 ^ 63) % 2 ^ 64 - 2 ^ 63

/-- Reinterpretation of an unsigned 32-bit value as a signed `int32_t`. -/
def toInt32 (n : Nat) : Int := wrap32 n

/-- Reinterpretation of an unsigned 64-bit value as a signed `int64_t`. -/
def toInt64 (n : Nat) : Int := wrap64 n

/-! The packed message header (12 bytes): magic u32, msg_type u8, flags u8,
session_id u16, payload_size u32, all little-endian. -/

structure HelixMsgHeader where
  magic : Nat
  msg_type : Nat
  flags : Nat
  session_id : Nat
  payload_size : Nat
  deriving DecidableEq

def headerSize : Nat := 12

/-- Field layout of `HelixMsgHeader`, decoded from the first 12 bytes. -/
def decodeHeader (bs : List Nat) : HelixMsgHeader :=
  { magic := deLE (bs.take 4)
  , msg_type := bs.getD 4 0
  , flags := bs.getD 5 0
  , session_id := deLE ((bs.drop 6).take 2)
  , payload_size := deLE ((bs.drop 8).take 4) }

/-- Byte image of a header, used to build concrete wire inputs. -/
def encodeHeader (h : HelixMsgHeader) : List Nat :=
  leBytes 4 h.magic ++ [h.msg_type % 256, h.flags % 256] ++
    leBytes 2 h.session_id ++ leBytes 4 h.payload_size

/-- Bytes after the header of a `HelixFrameResponse` before the NAL records:
pts i64, dts i64, is_keyframe u8, 3 reserved, nal_count u32. -/
def frameResponseBodySize : Nat := 24

/-- Bytes after the header of a `HelixErrorResponse`: error_code i32 plus a
fixed 256-byte message buffer. -/
def errorBodySize : Nat := 260

/-- Total size of the packed `HelixFrameRequest` structure. -/
def frameRequestSize : Nat := 56

/-- Total size of the packed `HelixConfigRequest` structure. -/
def configRequestSize : Nat := 40

/-! Client side: the GstVsockEnc element state and operations from
gstvsockenc.c. GStreamer and socket calls are modelled by explicit inputs:
the response byte stream, and an environment of success bits for
connect/map/write system calls. -/

inductive GstVideoFormat where
  | BGRx
  | BGRA
  | RGBx
  | RGBA
  | NV12
  | other
  deriving DecidableEq

/-- Pixel-format mapping of the switch in gst_vsockenc_handle_frame. -/
def mapFormat : GstVideoFormat → Nat
  | .BGRx => HELIX_FORMAT_BGRA8888
  | .BGRA => HELIX_FORMAT_BGRA8888
  | .RGBx => HELIX_FORMAT_RGBA8888
  | .RGBA => HELIX_FORMAT_RGBA8888
  | .NV12 => HELIX_FORMAT_NV12
  | .other => HELIX_FORMAT_BGRA8888

/-- A GstVideoCodecFrame together with the externally determined facts the
element reads off it: the force-keyframe flag, timestamps, the virtio-gpu
resource id lookup result (0 means no GPU handle), and the mapped pixel
bytes of its input buffer. -/
structure CodecFrame where
  frameId : Nat
  is_force_keyframe : Bool
  pts : Int
  duration : Int
  resource_id : Nat
  pixels : List Nat
  deriving DecidableEq

/-- Mutable element state of GstVsockEnc used by the pipeline logic. -/
structure ClientState where
  connected : Bool
  frame_count : Nat
  keyframe_interval : Int
  pending_frame : Option CodecFrame
  running : Bool
  input_format : GstVideoFormat
  input_width : Nat
  input_height : Nat
  input_stride : Nat
  deriving DecidableEq

/-- A frame as handed to gst_video_encoder_finish_frame: its identity, the
attached output buffer (`none` when the frame is dropped without output),
whether it was marked a sync point, and the DTS stamped on the output. -/
structure FinishedFrame where
  frame : CodecFrame
  output : Option (List (List Nat))
  sync_point : Bool
  dts : Int
  deriving DecidableEq

/-- A pending frame finished with no output buffer attached. -/
def droppedFrame (pf : CodecFrame) : FinishedFrame :=
  { frame := pf, output := none, sync_point := false, dts := 0 }

/-- Result of gst_vsockenc_finish_pending: the updated element state, the
unread remainder of the response stream, the gboolean return, and the frame
(if any) that was finished. -/
structure DrainResult where
  state : ClientState
  rest : List Nat
  ret : Bool
  finished : Option FinishedFrame
  deriving DecidableEq

/-- Reads the `nal_count` records of `(u32 size, size bytes)` pairs of a
frame response, as the loop in gst_vsockenc_finish_pending does. -/
def readNALs : Nat → List Nat → Option (List (List Nat)) × List Nat
  | 0, bs => (some [], bs)
  | Nat.succ n, bs =>
    match readExact bs 4 with
    | (none, r) => (none, r)
    | (some szb, r1) =>
      match readExact r1 (deLE szb) with
      | (none, r) => (none, r)
      | (some dat, r2) =>
        match readNALs n r2 with
        | (none, r) => (none, r)
        | (some ns, r3) => (some (dat :: ns), r3)

/-- Model of gst_vsockenc_finish_pending. `block = false` performs the
zero-timeout poll first, modelled as data being ready exactly when the
stream is nonempty. Every read failure model returns the stream remainder
that an EOF-terminated socket would leave. -/
def gst_vsockenc_finish_pending (s : ClientState) (block : Bool)
    (stream : List Nat) : DrainResult :=
  match s.pending_frame with
  | none => ⟨s, stream, true, none⟩
  | some pf =>
    if block = false ∧ stream = [] then ⟨s, stream, false, none⟩
    else
      match readExact stream headerSize with
      | (none, r) =>
        ⟨{ s with connected := false, pending_frame := none }, r, true,
          some (droppedFrame pf)⟩
      | (some hb, rest) =>
        let header := decodeHeader hb
        if header.magic ≠ HELIX_MSG_MAGIC then
          ⟨{ s with pending_frame := none }, rest, true, some (droppedFrame pf)⟩
        else if header.msg_type = HELIX_MSG_ERROR then
          ⟨{ s with pending_frame := none }, (readExact rest errorBodySize).2,
            true, some (droppedFrame pf)⟩
        else if header.msg_type ≠ HELIX_MSG_FRAME_RESPONSE then
          let rest2 :=
            if 0 < header.payload_size then (readExact rest header.payload_size).2
            else rest
          ⟨{ s with pending_frame := none }, rest2, true, some (droppedFrame pf)⟩
        else
          match readExact rest frameResponseBodySize with
          | (none, r) =>
            ⟨{ s with pending_frame := none }, r, true, some (droppedFrame pf)⟩
          | (some body, rest2) =>
            let dts := toInt64 (deLE ((body.drop 8).take 8))
            let is_keyframe := body.getD 16 0
            let nal_count := deLE ((body.drop 20).take 4)
            match readNALs nal_count rest2 with
            | (none, r) =>
              ⟨{ s with pending_frame := none }, r, true, some (droppedFrame pf)⟩
            | (some nals, rest3) =>
              ⟨{ s with pending_frame := none }, rest3, true,
                some { frame := pf, output := some nals,
                       sync_point := is_keyframe != 0, dts := dts }⟩

/-- Outcome of the drain-the-previous-frame phase at the top of
gst_vsockenc_handle_frame. -/
structure DrainOut where
  state : ClientState
  rest : List Nat
  finished : Option FinishedFrame
  deriving DecidableEq

def drainOutOf (r : DrainResult) : DrainOut :=
  { state := r.state, rest := r.rest, finished := r.finished }

/-- The pipelining prologue of gst_vsockenc_handle_frame: if a frame is
pending, try a non-blocking drain; if no data was ready, block for it. -/
def drainPhase (s : ClientState) (stream : List Nat) : DrainOut :=
  match s.pending_frame with
  | none => { state := s, rest := stream, finished := none }
  | some _ =>
    let r1 := gst_vsockenc_finish_pending s false stream
    if r1.ret then drainOutOf r1
    else drainOutOf (gst_vsockenc_finish_pending r1.state true r1.rest)

/-- The packed `HelixFrameRequest` the client builds. -/
structure HelixFrameRequest where
  header : HelixMsgHeader
  resource_id : Nat
  width : Nat
  height : Nat
  format : Nat
  stride : Nat
  pts : Int
  duration : Int
  force_keyframe : Nat
  deriving DecidableEq

inductive GstFlowReturn where
  | ok
  | error
  deriving DecidableEq

/-- Success bits for the external calls a submission makes: connect(2),
gst_buffer_map, the write of the fixed request structure, and the
pixel-payload write loop. -/
structure ClientEnv where
  connectOk : Bool
  mapOk : Bool
  writeReqOk : Bool
  writePixOk : Bool
  deriving DecidableEq

/-- Result of one gst_vsockenc_handle_frame call: the element state, the
unread response stream, the GstFlowReturn, the previously pending frame
finished during the drain phase, and the request built for this frame. -/
structure HandleResult where
  state : ClientState
  rest : List Nat
  flow : GstFlowReturn
  finishedPrev : Option FinishedFrame
  request : Option HelixFrameRequest
  deriving DecidableEq

/-- The keyframe decision of gst_vsockenc_handle_frame: an explicit caller
request, or a positive interval whose counter boundary is reached. -/
def forceKeyframeDecision (s : ClientState) (f : CodecFrame) : Bool :=
  f.is_force_keyframe ||
    (decide (0 < s.keyframe_interval) &&
      decide (s.frame_count % s.keyframe_interval.toNat = 0))

/-- The `HelixFrameRequest` built by gst_vsockenc_handle_frame, including
the inline-pixel-data flag and payload-size adjustment. -/
def buildFrameRequest (s : ClientState) (f : CodecFrame) (hasPix : Bool) :
    HelixFrameRequest :=
  { header :=
    { magic := HELIX_MSG_MAGIC
    , msg_type := HELIX_MSG_FRAME_REQUEST
    , flags := if hasPix then HELIX_FLAG_PIXEL_DATA else 0
    , session_id := 1
    , payload_size :=
        frameRequestSize - headerSize + (if hasPix then f.pixels.length else 0) }
  , resource_id := f.resource_id
  , width := s.input_width
  , height := s.input_height
  , format := mapFormat s.input_format
  , stride := s.input_stride
  , pts := f.pts
  , duration := f.duration
  , force_keyframe := if forceKeyframeDecision s f then 1 else 0 }

/-- The tail of gst_vsockenc_handle_frame after the drain phase: build the
request, write it (and the inline pixels when the buffer has no GPU
handle), then store the frame as the new pending slot. A failed request
write returns GST_FLOW_ERROR leaving the state as it was; a failed pixel
write additionally clears `connected`. -/
def sendPhase (s : ClientState) (rest : List Nat) (fin : Option FinishedFrame)
    (f : CodecFrame) (env : ClientEnv) : HandleResult :=
  let hasPix := decide (f.resource_id = 0) && env.mapOk
  let req := buildFrameRequest s f hasPix
  if env.writeReqOk = false then
    { state := s, rest := rest, flow := .error, finishedPrev := fin,
      request := some req }
  else if hasPix && (env.writePixOk = false) then
    { state := { s with connected := false }, rest := rest, flow := .error,
      finishedPrev := fin, request := some req }
  else
    let s2 := { s with frame_count := (s.frame_count + 1) % 2 ^ 64 }
    { state := { s2 with pending_frame := some f },
      rest := rest, flow := .ok, finishedPrev := fin, request := some req }

/-- The state after a successful gst_vsockenc_connect. -/
def afterConnect (s : ClientState) : ClientState := { s with connected := true }

/-- Model of gst_vsockenc_handle_frame: lazily connect, drain the previous
pending frame (non-blocking first, then blocking), then build, send and
store the new frame. -/
def gst_vsockenc_handle_frame (s : ClientState) (f : CodecFrame)
    (stream : List Nat) (env : ClientEnv) : HandleResult :=
  if s.connected = false ∧ env.connectOk = false then
    { state := s, rest := stream, flow := .error, finishedPrev := none,
      request := none }
  else
    let d := drainPhase (afterConnect s) stream
    sendPhase d.state d.rest d.finished f env

/-- Model of gst_vsockenc_start: reset the frame counter, clear the pending
slot and mark the element running. -/
def gst_vsockenc_start (s : ClientState) : ClientState :=
  { s with frame_count := 0, running := true, pending_frame := none }

/-! Host side: the HelixFrameExport session of helix-frame-export.c.
External collaborators (VideoToolbox, virglrenderer, the socket) appear as
an environment of success bits, and their invocations as an event trace. -/

/-- Body fields of a frame request as the host reads them. -/
structure HostFrameRequest where
  resource_id : Nat
  width : Nat
  height : Nat
  format : Nat
  stride : Nat
  pts : Int
  duration : Int
  force_keyframe : Nat
  deriving DecidableEq

/-- Body fields of a config request as the host reads them. -/
structure HostConfigRequest where
  width : Nat
  height : Nat
  bitrate : Nat
  framerate_num : Nat
  framerate_den : Nat
  profile : Nat
  level : Nat
  realtime : Nat
  deriving DecidableEq

/-- Encoder-session fields of the HelixFrameExport context. -/
structure HelixFrameExport where
  configured : Bool
  width : Int
  height : Int
  bitrate : Int
  realtime : Bool
  encoder_session : Bool
  session_id : Nat
  deriving DecidableEq

/-- Observable external actions of the host dispatch path. -/
inductive HostEvent where
  | createSession (width height bitrate : Int) (realtime : Bool)
  | lookupResource (resource_id : Nat)
  | encodeFrame (pts duration : Int) (force_keyframe : Bool)
  | sentPong (session_id : Nat)
  | sentError (code : Int)
  deriving DecidableEq

/-- Success bits for the host's external calls: compression-session
creation, CVPixelBuffer creation, resource lookup, and frame submission. -/
structure HostEnv where
  createOk : Bool
  pixelBufferOk : Bool
  resourceFound : Bool
  encodeOk : Bool
  deriving DecidableEq

/-- A dispatch step's return code, resulting session state, and emitted
external actions. -/
structure HostStep where
  ret : Int
  state : HelixFrameExport
  events : List HostEvent
  deriving DecidableEq

/-- Model of create_encoder_session: tear down any existing session, then
create and configure a new one; on success record the configuration. -/
def create_encoder_session (fe : HelixFrameExport) (w h br : Int) (rt : Bool)
    (env : HostEnv) : HostStep :=
  let fe1 := { fe with encoder_session := false }
  if env.createOk then
    let fe2 := { fe1 with width := w, height := h, bitrate := br, realtime := rt }
    ⟨0, { fe2 with configured := true, encoder_session := true },
      [.createSession w h br rt]⟩
  else
    ⟨-1, fe1, [.createSession w h br rt]⟩

/-- Model of helix_encode_iosurface: fails when unconfigured, otherwise
submits the frame to the asynchronous encoder. -/
def helix_encode_iosurface (fe : HelixFrameExport) (pts duration : Int)
    (fk : Bool) (env : HostEnv) : Int × List HostEvent :=
  if fe.configured = false ∨ fe.encoder_session = false then
    (HELIX_ERR_NOT_CONFIGURED, [])
  else if env.pixelBufferOk = false then
    (HELIX_ERR_NO_IOSURFACE, [])
  else if env.encodeOk then
    (HELIX_ERR_OK, [.encodeFrame pts duration fk])
  else
    (HELIX_ERR_ENCODE_FAILED, [.encodeFrame pts duration fk])

/-- The default bitrate computed inside handle_frame_request when
auto-configuring: pixel count times 4 in int64 arithmetic, truncated by the
`(int32_t)` cast, then clamped to the 8 Mbps floor. -/
def autoBitrate (w h : Nat) : Int :=
  let pixels : Int := wrap64 ((w : Int) * (h : Int))
  let br := wrap32 (wrap64 (pixels * 4))
  if br < 8000000 then 8000000 else br

/-- The resource-lookup and encode tail of handle_frame_request. -/
def frameEncodePhase (fe : HelixFrameExport) (evs : List HostEvent)
    (req : HostFrameRequest) (env : HostEnv) : HostStep :=
  let evs1 := evs ++ [.lookupResource req.resource_id]
  if env.resourceFound = false then ⟨HELIX_ERR_RESOURCE_NOT_FOUND, fe, evs1⟩
  else
    let r := helix_encode_iosurface fe req.pts req.duration
      (req.force_keyframe != 0) env
    ⟨r.1, fe, evs1 ++ r.2⟩

/-- Model of handle_frame_request: auto-configure on first frame or
resolution change, then look up the resource and submit the frame. -/
def handle_frame_request (fe : HelixFrameExport) (req : HostFrameRequest)
    (env : HostEnv) : HostStep :=
  if fe.configured = false ∨ fe.width ≠ toInt32 req.width ∨
      fe.height ≠ toInt32 req.height then
    let st := create_encoder_session fe (toInt32 req.width) (toInt32 req.height)
      (autoBitrate req.width req.height) true env
    if st.ret ≠ 0 then ⟨HELIX_ERR_INTERNAL, st.state, st.events⟩
    else frameEncodePhase st.state st.events req env
  else frameEncodePhase fe [] req env

/-- Model of handle_config_request. -/
def handle_config_request (fe : HelixFrameExport) (req : HostConfigRequest)
    (env : HostEnv) : HostStep :=
  let st := create_encoder_session fe (toInt32 req.width) (toInt32 req.height)
    (toInt32 req.bitrate) (req.realtime != 0) env
  if st.ret = 0 then ⟨HELIX_ERR_OK, st.state, st.events⟩
  else ⟨HELIX_ERR_INTERNAL, st.state, st.events⟩

/-- Frame-request body fields at their packed offsets. -/
def decodeHostFrameRequest (data : List Nat) : HostFrameRequest :=
  { resource_id := deLE ((data.drop 12).take 4)
  , width := deLE ((data.drop 16).take 4)
  , height := deLE ((data.drop 20).take 4)
  , format := deLE ((data.drop 24).take 4)
  , stride := deLE ((data.drop 28).take 4)
  , pts := toInt64 (deLE ((data.drop 32).take 8))
  , duration := toInt64 (deLE ((data.drop 40).take 8))
  , force_keyframe := data.getD 48 0 }

/-- Config-request body fields at their packed offsets. -/
def decodeHostConfigRequest (data : List Nat) : HostConfigRequest :=
  { width := deLE ((data.drop 12).take 4)
  , height := deLE ((data.drop 16).take 4)
  , bitrate := deLE ((data.drop 20).take 4)
  , framerate_num := deLE ((data.drop 24).take 4)
  , framerate_den := deLE ((data.drop 28).take 4)
  , profile := data.getD 32 0
  , level := data.getD 33 0
  , realtime := data.getD 34 0 }

/-- Model of helix_frame_export_process_msg: validate the header, then
dispatch by message type with per-type length checks. -/
def helix_frame_export_process_msg (fe : HelixFrameExport) (data : List Nat)
    (env : HostEnv) : HostStep :=
  if data.length < headerSize then ⟨HELIX_ERR_INVALID_MSG, fe, []⟩
  else if (decodeHeader data).magic ≠ HELIX_MSG_MAGIC then
    ⟨HELIX_ERR_INVALID_MSG, fe, []⟩
  else if (decodeHeader data).msg_type = HELIX_MSG_FRAME_REQUEST then
    if data.length < frameRequestSize then ⟨HELIX_ERR_INVALID_MSG, fe, []⟩
    else handle_frame_request fe (decodeHostFrameRequest data) env
  else if (decodeHeader data).msg_type = HELIX_MSG_CONFIG_REQ then
    if data.length < configRequestSize then ⟨HELIX_ERR_INVALID_MSG, fe, []⟩
    else handle_config_request fe (decodeHostConfigRequest data) env
  else if (decodeHeader data).msg_type = HELIX_MSG_KEYFRAME_REQ then
    ⟨HELIX_ERR_OK, fe, []⟩
  else if (decodeHeader data).msg_type = HELIX_MSG_PING then
    ⟨HELIX_ERR_OK, fe, [.sentPong (decodeHeader data).session_id]⟩
  else ⟨HELIX_ERR_INVALID_MSG, fe, []⟩

/-- One iteration of vsock_server_thread: a failed or empty recv breaks the
loop (`none`); otherwise the whole received chunk is handed to
helix_frame_export_process_msg and, on any non-OK return, an ErrorResponse
is sent back and the loop continues. -/
def vsock_server_step (fe : HelixFrameExport) (recvd : Option (List Nat))
    (env : HostEnv) : Option (HelixFrameExport × List HostEvent) :=
  match recvd with
  | none => none
  | some chunk =>
    if chunk = [] then none
    else
      let st := helix_frame_export_process_msg fe chunk env
      if st.ret ≠ HELIX_ERR_OK then
        some (st.state, st.events ++ [.sentError st.ret])
      else some (st.state, st.events)

/-! Helper lemmas about the byte-stream primitives and the client drain. -/

theorem readExact_of_le {bs : List Nat} {n : Nat} (h : n ≤ bs.length) :
    readExact bs n = (some (bs.take n), bs.drop n) := by
  simp [readExact, h]

theorem finish_pending_no_pending (s : ClientState) (block : Bool)
    (stream : List Nat) (hp : s.pending_frame = none) :
    gst_vsockenc_finish_pending s block stream = ⟨s, stream, true, none⟩ := by
  unfold gst_vsockenc_finish_pending
  rw [hp]

theorem finish_pending_not_ready (s : ClientState) (stream : List Nat)
    (pf : CodecFrame) (hp : s.pending_frame = some pf) (he : stream = []) :
    gst_vsockenc_finish_pending s false stream = ⟨s, stream, false, none⟩ := by
  unfold gst_vsockenc_finish_pending
  rw [hp]
  simp [he]

theorem finish_pending_completes (s : ClientState) (block : Bool)
    (stream : List Nat) (pf : CodecFrame) (hp : s.pending_frame = some pf)
    (hready : block = true ∨ stream ≠ []) :
    (gst_vsockenc_finish_pending s block stream).ret = true ∧
    (gst_vsockenc_finish_pending s block stream).state.pending_frame = none ∧
    (gst_vsockenc_finish_pending s block stream).state.frame_count =
      s.frame_count ∧
    (gst_vsockenc_finish_pending s block stream).state.keyframe_interval =
      s.keyframe_interval ∧
    ((gst_vsockenc_finish_pending s block stream).finished.map
      FinishedFrame.frame) = some pf := by
  have hcond : ¬(block = false ∧ stream = []) := by
    rcases hready with h | h
    · intro hc
      rw [h] at hc
      simp at hc
    · intro hc
      exact h hc.2
  unfold gst_vsockenc_finish_pending
  rw [hp]
  dsimp only
  rw [if_neg hcond]
  rcases hre : readExact stream headerSize with ⟨o, r⟩
  cases o with
  | none => simp [droppedFrame]
  | some hb =>
    dsimp only
    by_cases hm : (decodeHeader hb).magic ≠ HELIX_MSG_MAGIC
    · rw [if_pos hm]
      simp [droppedFrame]
    · rw [if_neg hm]
      by_cases herr : (decodeHeader hb).msg_type = HELIX_MSG_ERROR
      · rw [if_pos herr]
        simp [droppedFrame]
      · rw [if_neg herr]
        by_cases hfr : (decodeHeader hb).msg_type ≠ HELIX_MSG_FRAME_RESPONSE
        · rw [if_pos hfr]
          simp [droppedFrame]
        · rw [if_neg hfr]
          rcases hre2 : readExact r frameResponseBodySize with ⟨o2, r2⟩
          cases o2 with
          | none => simp [droppedFrame]
          | some body =>
            dsimp only
            rcases hre3 : readNALs (deLE ((body.drop 20).take 4)) r2 with ⟨o3, r3⟩
            cases o3 with
            | none => simp [droppedFrame]
            | some nals => simp

/-- The drain phase always leaves the pending slot empty, preserves the
keyframe bookkeeping, and finishes exactly the previously pending frame. -/
theorem drainPhase_spec (s : ClientState) (stream : List Nat) :
    (drainPhase s stream).state.pending_frame = none ∧
    (drainPhase s stream).state.frame_count = s.frame_count ∧
    (drainPhase s stream).state.keyframe_interval = s.keyframe_interval ∧
    (∀ pf, s.pending_frame = some pf →
      ((drainPhase s stream).finished.map FinishedFrame.frame) = some pf) := by
  unfold drainPhase
  cases hp : s.pending_frame with
  | none => simp [hp]
  | some pf =>
    dsimp only
    by_cases hne : stream = []
    · rw [finish_pending_not_ready s stream pf hp hne]
      dsimp only [drainOutOf]
      have h2 := finish_pending_completes s true stream pf hp (Or.inl rfl)
      simp only [if_neg (by simp : ¬(false = true))]
      refine ⟨h2.2.1, h2.2.2.1, h2.2.2.2.1, fun pg hpg => ?_⟩
      injection hpg with hq
      subst hq
      exact h2.2.2.2.2
    · have h1 := finish_pending_completes s false stream pf hp (Or.inr hne)
      rw [if_pos h1.1]
      dsimp only [drainOutOf]
      refine ⟨h1.2.1, h1.2.2.1, h1.2.2.2.1, fun pg hpg => ?_⟩
      injection hpg with hq
      subst hq
      exact h1.2.2.2.2

theorem drainPhase_nonblocking_first (s : ClientState) (stream : List Nat)
    (pf : CodecFrame) (hp : s.pending_frame = some pf) (hne : stream ≠ []) :
    drainPhase s stream =
      drainOutOf (gst_vsockenc_finish_pending s false stream) := by
  unfold drainPhase
  rw [hp]
  dsimp only
  rw [if_pos (finish_pending_completes s false stream pf hp (Or.inr hne)).1]

theorem drainPhase_blocking_fallback (s : ClientState) (stream : List Nat)
    (pf : CodecFrame) (hp : s.pending_frame = some pf) (he : stream = []) :
    drainPhase s stream =
      drainOutOf (gst_vsockenc_finish_pending s true stream) := by
  unfold drainPhase
  rw [hp]
  dsimp only
  rw [finish_pending_not_ready s stream pf hp he]
  simp

theorem sendPhase_pending (s : ClientState) (rest : List Nat)
    (fin : Option FinishedFrame) (f : CodecFrame) (env : ClientEnv) :
    ((sendPhase s rest fin f env).flow = GstFlowReturn.ok →
      (sendPhase s rest fin f env).state.pending_frame = some f) ∧
    ((sendPhase s rest fin f env).flow = GstFlowReturn.error →
      (sendPhase s rest fin f env).state.pending_frame = s.pending_frame) := by
  unfold sendPhase
  dsimp only
  split_ifs <;> simp

/-- C1: the client pipeline never holds more than one pending frame. On a
submission with a frame pending, the non-blocking drain is attempted first
and, when no data is ready, a blocking drain follows; the pending slot is
empty when the send phase (which writes the new request) runs, the old
pending frame is the one finished, and after a successful submission the
new frame is the single pending frame. -/
theorem client_single_pending_invariant (s : ClientState) (f : CodecFrame)
    (stream : List Nat) (env : ClientEnv)
    (hc : s.connected = true ∨ env.connectOk = true) :
    (∀ pf, s.pending_frame = some pf → stream ≠ [] →
        drainPhase (afterConnect s) stream =
          drainOutOf (gst_vsockenc_finish_pending (afterConnect s) false stream)) ∧
    (∀ pf, s.pending_frame = some pf → stream = [] →
        drainPhase (afterConnect s) stream =
          drainOutOf (gst_vsockenc_finish_pending (afterConnect s) true stream)) ∧
    (drainPhase (afterConnect s) stream).state.pending_frame = none ∧
    (∀ pf, s.pending_frame = some pf →
        ((drainPhase (afterConnect s) stream).finished.map
          FinishedFrame.frame) = some pf) ∧
    gst_vsockenc_handle_frame s f stream env =
      sendPhase (drainPhase (afterConnect s) stream).state
        (drainPhase (afterConnect s) stream).rest
        (drainPhase (afterConnect s) stream).finished f env ∧
    ((gst_vsockenc_handle_frame s f stream env).flow = GstFlowReturn.ok →
        (gst_vsockenc_handle_frame s f stream env).state.pending_frame = some f) ∧
    ((gst_vsockenc_handle_frame s f stream env).flow = GstFlowReturn.error →
        (gst_vsockenc_handle_frame s f stream env).state.pending_frame = none) := by
  have hnc : ¬(s.connected = false ∧ env.connectOk = false) := by
    rcases hc with h | h <;> simp [h]
  have hpc : (afterConnect s).pending_frame = s.pending_frame := rfl
  have hd := drainPhase_spec (afterConnect s) stream
  have hhf : gst_vsockenc_handle_frame s f stream env =
      sendPhase (drainPhase (afterConnect s) stream).state
        (drainPhase (afterConnect s) stream).rest
        (drainPhase (afterConnect s) stream).finished f env := by
    unfold gst_vsockenc_handle_frame
    rw [if_neg hnc]
  refine ⟨?_, ?_, hd.1, ?_, hhf, ?_, ?_⟩
  · intro pf hp hne
    exact drainPhase_nonblocking_first (afterConnect s) stream pf
      (hpc.trans hp) hne
  · intro pf hp he
    exact drainPhase_blocking_fallback (afterConnect s) stream pf
      (hpc.trans hp) he
  · intro pf hp
    exact hd.2.2.2 pf (hpc.trans hp)
  · intro hok
    rw [hhf] at hok ⊢
    exact (sendPhase_pending _ _ _ f env).1 hok
  · intro herr
    rw [hhf] at herr ⊢
    rw [(sendPhase_pending _ _ _ f env).2 herr]
    exact hd.1

/-- C2 (amended): a response header with bad magic makes the client discard
the pending frame with no output, consuming exactly the 12 header bytes,
but the connection is NOT marked disconnected — the `connected` flag is
left unchanged (the resulting state differs from the input state only in
the cleared pending slot). -/
theorem bad_magic_drops_frame_keeps_connection (s : ClientState)
    (pf : CodecFrame) (block : Bool) (stream : List Nat)
    (hp : s.pending_frame = some pf)
    (hready : block = true ∨ stream ≠ [])
    (hlen : headerSize ≤ stream.length)
    (hmagic : (decodeHeader (stream.take headerSize)).magic ≠ HELIX_MSG_MAGIC) :
    gst_vsockenc_finish_pending s block stream =
      ⟨{ s with pending_frame := none }, stream.drop headerSize, true,
        some (droppedFrame pf)⟩ := by
  have hcond : ¬(block = false ∧ stream = []) := by
    rcases hready with h | h
    · intro hcc
      rw [h] at hcc
      simp at hcc
    · intro hcc
      exact h hcc.2
  unfold gst_vsockenc_finish_pending
  rw [hp]
  dsimp only
  rw [if_neg hcond, readExact_of_le hlen]
  dsimp only
  rw [if_pos hmagic]

/-- C4: on a response with valid magic whose type is neither FrameResponse
nor Error, the client reads and discards exactly `payload_size` bytes past
the header (leaving the stream aligned at the next message boundary) and
discards the pending frame with no output. -/
theorem unexpected_type_skips_payload (s : ClientState) (pf : CodecFrame)
    (block : Bool) (stream : List Nat)
    (hp : s.pending_frame = some pf)
    (hready : block = true ∨ stream ≠ [])
    (hmagic : (decodeHeader (stream.take headerSize)).magic = HELIX_MSG_MAGIC)
    (hterr : (decodeHeader (stream.take headerSize)).msg_type ≠ HELIX_MSG_ERROR)
    (htfr : (decodeHeader (stream.take headerSize)).msg_type ≠
      HELIX_MSG_FRAME_RESPONSE)
    (hlen : headerSize + (decodeHeader (stream.take headerSize)).payload_size ≤
      stream.length) :
    gst_vsockenc_finish_pending s block stream =
      ⟨{ s with pending_frame := none },
        stream.drop
          (headerSize + (decodeHeader (stream.take headerSize)).payload_size),
        true, some (droppedFrame pf)⟩ := by
  have hcond : ¬(block = false ∧ stream = []) := by
    rcases hready with h | h
    · intro hcc
      rw [h] at hcc
      simp at hcc
    · intro hcc
      exact h hcc.2
  have hlen12 : headerSize ≤ stream.length := by omega
  unfold gst_vsockenc_finish_pending
  rw [hp]
  dsimp only
  rw [if_neg hcond, readExact_of_le hlen12]
  dsimp only
  rw [if_neg (not_not_intro hmagic), if_neg hterr, if_pos htfr]
  by_cases hpz : 0 < (decodeHeader (stream.take headerSize)).payload_size
  · have hple : (decodeHeader (stream.take headerSize)).payload_size ≤
        (stream.drop headerSize).length := by
      rw [List.length_drop]
      omega
    rw [if_pos hpz, readExact_of_le hple]
    dsimp only
    rw [List.drop_drop, Nat.add_comm]
  · have hz : (decodeHeader (stream.take headerSize)).payload_size = 0 := by
      omega
    rw [if_neg hpz, hz, Nat.add_zero]

theorem handle_frame_request_eq (s : ClientState) (f : CodecFrame)
    (stream : List Nat) (env : ClientEnv)
    (hc : s.connected = true ∨ env.connectOk = true) :
    (gst_vsockenc_handle_frame s f stream env).request =
      some (buildFrameRequest (drainPhase (afterConnect s) stream).state f
        (decide (f.resource_id = 0) && env.mapOk)) := by
  have hnc : ¬(s.connected = false ∧ env.connectOk = false) := by
    rcases hc with h | h <;> simp [h]
  unfold gst_vsockenc_handle_frame
  rw [if_neg hnc]
  unfold sendPhase
  dsimp only
  split_ifs <;> rfl

theorem buildFrameRequest_force_keyframe_iff (s : ClientState) (f : CodecFrame)
    (hasPix : Bool) :
    ((buildFrameRequest s f hasPix).force_keyframe = 1 ↔
      (f.is_force_keyframe = true ∨
        (0 < s.keyframe_interval ∧
          s.frame_count % s.keyframe_interval.toNat = 0))) := by
  unfold buildFrameRequest forceKeyframeDecision
  dsimp only
  split_ifs with h <;> simp_all

/-- C8: the force_keyframe flag of the built FrameRequest is 1 exactly when
the frame carries an explicit force-keyframe request, or the keyframe
interval is positive and the submission counter is at a multiple of it. -/
theorem force_keyframe_decision_correct (s : ClientState) (f : CodecFrame)
    (stream : List Nat) (env : ClientEnv)
    (hc : s.connected = true ∨ env.connectOk = true)
    (req : HelixFrameRequest)
    (hreq : (gst_vsockenc_handle_frame s f stream env).request = some req) :
    (req.force_keyframe = 1 ↔
      (f.is_force_keyframe = true ∨
        (0 < s.keyframe_interval ∧
          s.frame_count % s.keyframe_interval.toNat = 0))) := by
  rw [handle_frame_request_eq s f stream env hc] at hreq
  injection hreq with hr
  subst hr
  have hd := drainPhase_spec (afterConnect s) stream
  have hiff := buildFrameRequest_force_keyframe_iff
    (drainPhase (afterConnect s) stream).state f
    (decide (f.resource_id = 0) && env.mapOk)
  rw [hd.2.1, hd.2.2.1] at hiff
  exact hiff

/-- C9: with a positive keyframe interval, the first frame submitted after
gst_vsockenc_start builds its request with force_keyframe = 1, because the
frame counter starts at 0 and the periodic test runs before the counter is
incremented. -/
theorem first_frame_forces_keyframe (s0 : ClientState) (f : CodecFrame)
    (stream : List Nat) (env : ClientEnv)
    (hki : 0 < s0.keyframe_interval)
    (hc : s0.connected = true ∨ env.connectOk = true)
    (req : HelixFrameRequest)
    (hreq : (gst_vsockenc_handle_frame (gst_vsockenc_start s0) f stream
      env).request = some req) :
    req.force_keyframe = 1 := by
  rw [handle_frame_request_eq (gst_vsockenc_start s0) f stream env hc] at hreq
  injection hreq with hr
  subst hr
  have hd := drainPhase_spec (afterConnect (gst_vsockenc_start s0)) stream
  have hiff := buildFrameRequest_force_keyframe_iff
    (drainPhase (afterConnect (gst_vsockenc_start s0)) stream).state f
    (decide (f.resource_id = 0) && env.mapOk)
  rw [hd.2.1, hd.2.2.1] at hiff
  refine hiff.mpr (Or.inr ⟨hki, ?_⟩)
  show (gst_vsockenc_start s0).frame_count % _ = 0
  simp [gst_vsockenc_start]

/-- C3 (amended): a failed write of the inline pixel payload marks the
connection Disconnected and fails the submission, but a failed write of
the fixed request structure only fails the submission — the `connected`
flag is left as the drain phase left it. -/
theorem write_failure_marks (s : ClientState) (f : CodecFrame)
    (stream : List Nat) (env : ClientEnv)
    (hc : s.connected = true ∨ env.connectOk = true) :
    (env.writeReqOk = false →
        (gst_vsockenc_handle_frame s f stream env).flow = GstFlowReturn.error ∧
        (gst_vsockenc_handle_frame s f stream env).state.connected =
          (drainPhase (afterConnect s) stream).state.connected) ∧
    (env.writeReqOk = true → f.resource_id = 0 → env.mapOk = true →
        env.writePixOk = false →
        (gst_vsockenc_handle_frame s f stream env).flow = GstFlowReturn.error ∧
        (gst_vsockenc_handle_frame s f stream env).state.connected = false) := by
  have hnc : ¬(s.connected = false ∧ env.connectOk = false) := by
    rcases hc with h | h <;> simp [h]
  constructor
  · intro h1
    unfold gst_vsockenc_handle_frame
    rw [if_neg hnc]
    unfold sendPhase
    dsimp only
    rw [if_pos h1]
    exact ⟨rfl, rfl⟩
  · intro h1 h2 h3 h4
    unfold gst_vsockenc_handle_frame
    rw [if_neg hnc]
    unfold sendPhase
    dsimp only
    rw [if_neg (by simp [h1]), if_pos (by simp [h2, h3, h4])]
    exact ⟨rfl, rfl⟩

/-! Concrete values used by the witnesses and counterexamples. -/

def exPrevFrame : CodecFrame :=
  { frameId := 0, is_force_keyframe := false, pts := 0, duration := 0,
    resource_id := 7, pixels := [] }

def exNewFrame : CodecFrame :=
  { frameId := 1, is_force_keyframe := false, pts := 0, duration := 0,
    resource_id := 7, pixels := [] }

def exPixFrame : CodecFrame :=
  { frameId := 2, is_force_keyframe := false, pts := 0, duration := 0,
    resource_id := 0, pixels := [1, 2, 3] }

def exPendingState : ClientState :=
  { connected := true, frame_count := 5, keyframe_interval := 60,
    pending_frame := some exPrevFrame, running := true,
    input_format := .NV12, input_width := 1920, input_height := 1080,
    input_stride := 1920 }

def exIdleState : ClientState :=
  { connected := true, frame_count := 120, keyframe_interval := 60,
    pending_frame := none, running := true,
    input_format := .NV12, input_width := 1920, input_height := 1080,
    input_stride := 1920 }

def exEnvOk : ClientEnv :=
  { connectOk := true, mapOk := true, writeReqOk := true, writePixOk := true }

def exEnvNoReqWrite : ClientEnv :=
  { connectOk := true, mapOk := true, writeReqOk := false, writePixOk := true }

def exEnvNoPixWrite : ClientEnv :=
  { connectOk := true, mapOk := true, writeReqOk := true, writePixOk := false }

/-- A well-formed FrameResponse wire message: header, 24-byte body with
is_keyframe = 1 and nal_count = 1, then one 3-byte NAL record. -/
def exRespStream : List Nat :=
  encodeHeader ⟨HELIX_MSG_MAGIC, HELIX_MSG_FRAME_RESPONSE, 0, 1, 31⟩ ++
    leBytes 8 0 ++ leBytes 8 0 ++ [1, 0, 0, 0] ++ leBytes 4 1 ++
    leBytes 4 3 ++ [9, 8, 7]

/-- A 12-byte header whose magic field is zero. -/
def exBadMagicStream : List Nat := List.replicate 12 0

/-- A Pong message (unexpected for the drain path) with a 2-byte payload,
followed by 3 trailing bytes standing for the next message. -/
def exPongStream : List Nat :=
  encodeHeader ⟨HELIX_MSG_MAGIC, HELIX_MSG_PONG, 0, 1, 2⟩ ++ [7, 8] ++ [1, 2, 3]

/-- C1 witness: at a concrete pending state and a concrete well-formed
response stream, the drain phase empties the slot and the submitted frame
becomes the single pending frame. -/
theorem client_single_pending_witness :
    (drainPhase (afterConnect exPendingState) exRespStream).state.pending_frame
      = none ∧
    (gst_vsockenc_handle_frame exPendingState exNewFrame exRespStream
      exEnvOk).state.pending_frame = some exNewFrame := by
  have h := client_single_pending_invariant exPendingState exNewFrame
    exRespStream exEnvOk (Or.inl rfl)
  exact ⟨h.2.2.1, h.2.2.2.2.2.1 (by decide)⟩

/-- C2 counterexample: with a frame pending and a bad-magic response
header, the code discards the frame with no output but leaves the
connection marked connected, contradicting the claim that bad magic
immediately marks the connection disconnected. -/
theorem bad_magic_keeps_connection_counterexample :
    exPendingState.pending_frame.isSome = true ∧
    (decodeHeader (exBadMagicStream.take headerSize)).magic ≠
      HELIX_MSG_MAGIC ∧
    (gst_vsockenc_finish_pending exPendingState true
      exBadMagicStream).state.connected = true ∧
    (gst_vsockenc_finish_pending exPendingState true
      exBadMagicStream).state.pending_frame = none ∧
    ((gst_vsockenc_finish_pending exPendingState true
      exBadMagicStream).finished.map FinishedFrame.output) = some none := by
  decide

/-- C2 witness for the amended claim, at the bad-magic input. -/
theorem bad_magic_drops_frame_witness :
    gst_vsockenc_finish_pending exPendingState true exBadMagicStream =
      ⟨{ exPendingState with pending_frame := none },
        exBadMagicStream.drop headerSize, true,
        some (droppedFrame exPrevFrame)⟩ := by
  exact bad_magic_drops_frame_keeps_connection exPendingState exPrevFrame
    true exBadMagicStream rfl (Or.inl rfl) (by decide) (by decide)

/-- C3 counterexample: a failed write of the fixed request structure fails
the submission but leaves `connected` true, contradicting the claim that
every write failure marks the connection Disconnected. -/
theorem request_write_failure_counterexample :
    exEnvNoReqWrite.writeReqOk = false ∧
    (gst_vsockenc_handle_frame exIdleState exNewFrame [] exEnvNoReqWrite).flow
      = GstFlowReturn.error ∧
    (gst_vsockenc_handle_frame exIdleState exNewFrame []
      exEnvNoReqWrite).state.connected = true := by
  decide

/-- C3 witness for the amended claim: a pixel-payload write failure does
mark the connection Disconnected and fails the submission. -/
theorem write_failure_marks_witness :
    (gst_vsockenc_handle_frame exIdleState exPixFrame [] exEnvNoPixWrite).flow
      = GstFlowReturn.error ∧
    (gst_vsockenc_handle_frame exIdleState exPixFrame []
      exEnvNoPixWrite).state.connected = false := by
  exact (write_failure_marks exIdleState exPixFrame [] exEnvNoPixWrite
    (Or.inl rfl)).2 rfl rfl rfl rfl

/-- C4 witness: a Pong with payload_size 2 arriving in place of a
FrameResponse is skipped in full, leaving exactly the trailing bytes of
the next message, and the pending frame is dropped with no output. -/
theorem unexpected_type_skips_payload_witness :
    gst_vsockenc_finish_pending exPendingState false exPongStream =
      ⟨{ exPendingState with pending_frame := none }, [1, 2, 3], true,
        some (droppedFrame exPrevFrame)⟩ := by
  have h := unexpected_type_skips_payload exPendingState exPrevFrame false
    exPongStream rfl (Or.inr (by decide)) (by decide) (by decide) (by decide)
    (by decide)
  exact h.trans (by decide)

/-- The request the client builds at the C8 witness state. -/
def exBuiltRequest : HelixFrameRequest :=
  buildFrameRequest (afterConnect exIdleState) exNewFrame false

/-- C8 witness: at frame_count 120 with keyframe_interval 60 and no
explicit request, the periodic test fires and the built request carries
force_keyframe = 1. -/
theorem force_keyframe_decision_witness :
    (gst_vsockenc_handle_frame exIdleState exNewFrame [] exEnvOk).request =
      some exBuiltRequest ∧
    exBuiltRequest.force_keyframe = 1 := by
  refine ⟨by decide, ?_⟩
  exact (force_keyframe_decision_correct exIdleState exNewFrame [] exEnvOk
    (Or.inl rfl) exBuiltRequest (by decide)).mpr (Or.inr (by decide))

/-- The request the client builds for the first frame after start. -/
def exStartRequest : HelixFrameRequest :=
  buildFrameRequest (afterConnect (gst_vsockenc_start exPendingState))
    exNewFrame false

/-- C9 witness: after gst_vsockenc_start the first submission's request has
force_keyframe = 1. -/
theorem first_frame_forces_keyframe_witness :
    (gst_vsockenc_handle_frame (gst_vsockenc_start exPendingState) exNewFrame
      [] exEnvOk).request = some exStartRequest ∧
    exStartRequest.force_keyframe = 1 := by
  refine ⟨by decide, ?_⟩
  exact first_frame_forces_keyframe exPendingState exNewFrame [] exEnvOk
    (by decide) (Or.inl rfl) exStartRequest (by decide)

/-! Host-side lemmas and theorems. -/

/-- Recognizer for encoder (re)configuration events. -/
def isCreateSession : HostEvent → Bool
  | .createSession _ _ _ _ => true
  | _ => false

/-- Number of encoder (re)configurations in an event trace. -/
def countCreates (evs : List HostEvent) : Nat :=
  (evs.filter isCreateSession).length

theorem wrap64_eq_self {x : Int} (h0 : 0 ≤ x) (h1 : x < 2 ^ 63) :
    wrap64 x = x := by
  unfold wrap64
  rw [Int.emod_eq_of_lt (by omega) (by omega)]
  omega

theorem wrap32_eq_self {x : Int} (h0 : 0 ≤ x) (h1 : x < 2 ^ 31) :
    wrap32 x = x := by
  unfold wrap32
  rw [Int.emod_eq_of_lt (by omega) (by omega)]
  omega

/-- In the overflow-free region the auto-configured bitrate is the clamped
linear formula. -/
theorem autoBitrate_eq_max (w h : Nat) (hfit : 4 * w * h < 2 ^ 31) :
    autoBitrate w h = max (4 * (w : Int) * (h : Int)) 8000000 := by
  have hw0 : (0 : Int) ≤ (w : Int) := Int.natCast_nonneg w
  have hh0 : (0 : Int) ≤ (h : Int) := Int.natCast_nonneg h
  have hwh0 : (0 : Int) ≤ (w : Int) * h := mul_nonneg hw0 hh0
  have hfitI : 4 * (w : Int) * h < 2 ^ 31 := by exact_mod_cast hfit
  have hpow : (2 : Int) ^ 31 < 2 ^ 63 := by norm_num
  have hwhlt : (w : Int) * h < 2 ^ 63 := by nlinarith
  unfold autoBitrate
  dsimp only
  rw [wrap64_eq_self hwh0 hwhlt]
  have h4 : (w : Int) * h * 4 = 4 * (w : Int) * h := by ring
  rw [h4]
  rw [wrap64_eq_self (by positivity) (by linarith)]
  rw [wrap32_eq_self (by positivity) hfitI]
  rcases lt_or_ge (4 * (w : Int) * h) 8000000 with hlt | hge
  · rw [if_pos hlt, max_eq_right (le_of_lt hlt)]
  · rw [if_neg (not_lt.mpr hge), max_eq_left hge]

theorem frameEncodePhase_state (fe : HelixFrameExport) (evs : List HostEvent)
    (req : HostFrameRequest) (env : HostEnv) :
    (frameEncodePhase fe evs req env).state = fe := by
  unfold frameEncodePhase
  dsimp only
  split_ifs <;> rfl

theorem countCreates_frameEncodePhase (fe : HelixFrameExport)
    (evs : List HostEvent) (req : HostFrameRequest) (env : HostEnv) :
    countCreates (frameEncodePhase fe evs req env).events = countCreates evs := by
  unfold frameEncodePhase helix_encode_iosurface countCreates
  dsimp only
  split_ifs <;> simp [isCreateSession]

theorem frameEncodePhase_events_head (fe : HelixFrameExport) (e : HostEvent)
    (evs : List HostEvent) (req : HostFrameRequest) (env : HostEnv) :
    (frameEncodePhase fe (e :: evs) req env).events.head? = some e := by
  unfold frameEncodePhase helix_encode_iosurface
  dsimp only
  split_ifs <;> rfl

/-- C5: a FrameRequest triggers an encoder (re)configuration exactly when
the session is unconfigured or the request resolution differs from the
configured one; the resulting state is configured at the request's
resolution, and any further FrameRequest at the same resolution triggers
no reconfiguration. -/
theorem host_autoconfigure_exactly_once (fe : HelixFrameExport)
    (req : HostFrameRequest) (env : HostEnv) (hok : env.createOk = true) :
    (countCreates (handle_frame_request fe req env).events =
      if fe.configured = false ∨ fe.width ≠ toInt32 req.width ∨
          fe.height ≠ toInt32 req.height then 1 else 0) ∧
    (handle_frame_request fe req env).state.configured = true ∧
    (handle_frame_request fe req env).state.width = toInt32 req.width ∧
    (handle_frame_request fe req env).state.height = toInt32 req.height ∧
    (∀ (req2 : HostFrameRequest) (env2 : HostEnv),
        req2.width = req.width → req2.height = req.height →
        countCreates (handle_frame_request
          (handle_frame_request fe req env).state req2 env2).events = 0) := by
  by_cases hC : fe.configured = false ∨ fe.width ≠ toInt32 req.width ∨
      fe.height ≠ toInt32 req.height
  · unfold handle_frame_request
    rw [if_pos hC]
    unfold create_encoder_session
    rw [if_pos hok]
    dsimp only
    rw [if_neg (by simp : ¬(0 : Int) ≠ 0)]
    refine ⟨?_, ?_, ?_, ?_, ?_⟩
    · rw [countCreates_frameEncodePhase, if_pos hC]
      simp [countCreates, isCreateSession]
    · rw [frameEncodePhase_state]
    · rw [frameEncodePhase_state]
    · rw [frameEncodePhase_state]
    · intro req2 env2 hw hh
      rw [frameEncodePhase_state]
      rw [if_neg (by simp [hw, hh])]
      rw [countCreates_frameEncodePhase]
      simp [countCreates]
  · have hC2 := hC
    push_neg at hC2
    obtain ⟨h1, h2, h3⟩ := hC2
    have h1t : fe.configured = true := by
      cases hcfg : fe.configured
      · exact absurd hcfg h1
      · rfl
    unfold handle_frame_request
    rw [if_neg hC]
    refine ⟨?_, ?_, ?_, ?_, ?_⟩
    · rw [countCreates_frameEncodePhase, if_neg hC]
      simp [countCreates]
    · rw [frameEncodePhase_state]
      exact h1t
    · rw [frameEncodePhase_state]
      exact h2
    · rw [frameEncodePhase_state]
      exact h3
    · intro req2 env2 hw hh
      rw [frameEncodePhase_state]
      rw [if_neg (by simp [hw, hh, h1t, h2, h3])]
      rw [countCreates_frameEncodePhase]
      simp [countCreates]

/-- C6 (amended): the auto-configured bitrate equals
max(4 * width * height, 8000000) whenever 4 * width * height fits in the
int32 range; outside that range the `(int32_t)` cast truncates the product
before the clamp, so the formula does not hold in general. -/
theorem auto_bitrate_formula (fe : HelixFrameExport) (req : HostFrameRequest)
    (env : HostEnv)
    (hC : fe.configured = false ∨ fe.width ≠ toInt32 req.width ∨
      fe.height ≠ toInt32 req.height)
    (hfit : 4 * req.width * req.height < 2 ^ 31) :
    (handle_frame_request fe req env).events.head? =
      some (HostEvent.createSession (toInt32 req.width) (toInt32 req.height)
        (max (4 * (req.width : Int) * (req.height : Int)) 8000000) true) := by
  rw [← autoBitrate_eq_max req.width req.height hfit]
  unfold handle_frame_request
  rw [if_pos hC]
  unfold create_encoder_session
  by_cases hc : env.createOk = true
  · rw [if_pos hc]
    dsimp only
    rw [if_neg (by simp : ¬(0 : Int) ≠ 0)]
    exact frameEncodePhase_events_head _ _ _ _ _
  · rw [if_neg hc]
    dsimp only
    rw [if_pos (by decide : (-1 : Int) ≠ 0)]
    rfl

/-- C7 (amended): an unrecognized but well-framed message type is not
fatal: the server loop sends back an ErrorResponse(InvalidMessage) and
continues with the session state unchanged. The loop advances past the
message by discarding the entire received buffer, not by the declared
payload size. -/
theorem unknown_type_nonfatal (fe : HelixFrameExport) (chunk : List Nat)
    (env : HostEnv)
    (hlen : headerSize ≤ chunk.length)
    (hmagic : (decodeHeader chunk).magic = HELIX_MSG_MAGIC)
    (ht1 : (decodeHeader chunk).msg_type ≠ HELIX_MSG_FRAME_REQUEST)
    (ht2 : (decodeHeader chunk).msg_type ≠ HELIX_MSG_CONFIG_REQ)
    (ht3 : (decodeHeader chunk).msg_type ≠ HELIX_MSG_KEYFRAME_REQ)
    (ht4 : (decodeHeader chunk).msg_type ≠ HELIX_MSG_PING) :
    vsock_server_step fe (some chunk) env =
      some (fe, [HostEvent.sentError HELIX_ERR_INVALID_MSG]) := by
  have hne : chunk ≠ [] := by
    intro h
    rw [h] at hlen
    simp [headerSize] at hlen
  have hmsg : helix_frame_export_process_msg fe chunk env =
      ⟨HELIX_ERR_INVALID_MSG, fe, []⟩ := by
    unfold helix_frame_export_process_msg
    rw [if_neg (by omega)]
    rw [if_neg (not_not_intro hmagic), if_neg ht1, if_neg ht2, if_neg ht3,
      if_neg ht4]
  simp only [vsock_server_step]
  rw [if_neg hne, hmsg]
  simp [HELIX_ERR_INVALID_MSG, HELIX_ERR_OK]

theorem helix_encode_iosurface_ret_ne (fe : HelixFrameExport)
    (pts duration : Int) (fk : Bool) (env : HostEnv) :
    (helix_encode_iosurface fe pts duration fk env).1 ≠ HELIX_ERR_INVALID_MSG := by
  unfold helix_encode_iosurface
  split_ifs <;> dsimp only <;> decide

theorem frameEncodePhase_ret_ne (fe : HelixFrameExport) (evs : List HostEvent)
    (req : HostFrameRequest) (env : HostEnv) :
    (frameEncodePhase fe evs req env).ret ≠ HELIX_ERR_INVALID_MSG := by
  unfold frameEncodePhase
  dsimp only
  split_ifs
  · dsimp only
    decide
  · exact helix_encode_iosurface_ret_ne fe req.pts req.duration
      (req.force_keyframe != 0) env

theorem handle_frame_request_ret_ne (fe : HelixFrameExport)
    (req : HostFrameRequest) (env : HostEnv) :
    (handle_frame_request fe req env).ret ≠ HELIX_ERR_INVALID_MSG := by
  unfold handle_frame_request
  by_cases hC : fe.configured = false ∨ fe.width ≠ toInt32 req.width ∨
      fe.height ≠ toInt32 req.height
  · rw [if_pos hC]
    unfold create_encoder_session
    by_cases hc : env.createOk = true
    · rw [if_pos hc]
      dsimp only
      rw [if_neg (by simp : ¬(0 : Int) ≠ 0)]
      exact frameEncodePhase_ret_ne _ _ req env
    · rw [if_neg hc]
      dsimp only
      rw [if_pos (by decide : (-1 : Int) ≠ 0)]
      dsimp only
      decide
  · rw [if_neg hC]
    exact frameEncodePhase_ret_ne _ _ req env

theorem handle_config_request_ret_ne (fe : HelixFrameExport)
    (req : HostConfigRequest) (env : HostEnv) :
    (handle_config_request fe req env).ret ≠ HELIX_ERR_INVALID_MSG := by
  unfold handle_config_request
  dsimp only
  split_ifs <;> dsimp only <;> decide

/-- C10: whenever helix_frame_export_process_msg reports InvalidMessage
(short input, bad magic, truncated recognized body, or unknown type), the
encoder session state is left unchanged. -/
theorem invalid_msg_preserves_session (fe : HelixFrameExport)
    (data : List Nat) (env : HostEnv)
    (h : (helix_frame_export_process_msg fe data env).ret =
      HELIX_ERR_INVALID_MSG) :
    (helix_frame_export_process_msg fe data env).state.configured =
      fe.configured ∧
    (helix_frame_export_process_msg fe data env).state.width = fe.width ∧
    (helix_frame_export_process_msg fe data env).state.height = fe.height ∧
    (helix_frame_export_process_msg fe data env).state.bitrate = fe.bitrate ∧
    (helix_frame_export_process_msg fe data env).state.realtime =
      fe.realtime := by
  have hstate : (helix_frame_export_process_msg fe data env).state = fe := by
    unfold helix_frame_export_process_msg at h ⊢
    split_ifs at h ⊢ <;>
      first
        | rfl
        | exact absurd h (handle_frame_request_ret_ne fe _ env)
        | exact absurd h (handle_config_request_ret_ne fe _ env)
  rw [hstate]
  exact ⟨rfl, rfl, rfl, rfl, rfl⟩

/-! Concrete host-side values used by witnesses and counterexamples. -/

def exHostFresh : HelixFrameExport :=
  { configured := false, width := 0, height := 0, bitrate := 0,
    realtime := false, encoder_session := false, session_id := 1 }

def exHostEnvOk : HostEnv :=
  { createOk := true, pixelBufferOk := true, resourceFound := true,
    encodeOk := true }

def exHostReq1080 : HostFrameRequest :=
  { resource_id := 3, width := 1920, height := 1080, format := 0, stride := 0,
    pts := 0, duration := 0, force_keyframe := 0 }

def exHostReqHuge : HostFrameRequest :=
  { resource_id := 3, width := 32768, height := 32768, format := 0,
    stride := 0, pts := 0, duration := 0, force_keyframe := 0 }

def exUnknownMsg : List Nat := encodeHeader ⟨HELIX_MSG_MAGIC, 0x42, 0, 1, 0⟩

def exPingMsg : List Nat :=
  encodeHeader ⟨HELIX_MSG_MAGIC, HELIX_MSG_PING, 0, 1, 0⟩

/-- C5 witness: on a fresh session, a 1920x1080 FrameRequest configures the
encoder exactly once and a repeat at the same resolution configures it zero
times. -/
theorem host_autoconfigure_witness :
    countCreates (handle_frame_request exHostFresh exHostReq1080
      exHostEnvOk).events = 1 ∧
    countCreates (handle_frame_request
      (handle_frame_request exHostFresh exHostReq1080 exHostEnvOk).state
      exHostReq1080 exHostEnvOk).events = 0 := by
  have h := host_autoconfigure_exactly_once exHostFresh exHostReq1080
    exHostEnvOk rfl
  refine ⟨?_, h.2.2.2.2 exHostReq1080 exHostEnvOk rfl rfl⟩
  rw [h.1]
  decide

/-- C6 counterexample: at 32768x32768 the code configures bitrate 8000000
(the int32 cast of 4 * 32768 * 32768 = 2^32 truncates to 0, which is then
clamped), while the claimed formula max(4*w*h, 8000000) gives 2^32. -/
theorem bitrate_overflow_counterexample :
    (handle_frame_request exHostFresh exHostReqHuge exHostEnvOk).events.head? =
      some (HostEvent.createSession 32768 32768 8000000 true) ∧
    (8000000 : Int) ≠ max (4 * 32768 * 32768) 8000000 := by
  constructor
  · decide
  · decide

/-- C6 witness for the amended claim at 1920x1080, where
max(4*1920*1080, 8000000) = 8294400. -/
theorem auto_bitrate_formula_witness :
    (handle_frame_request exHostFresh exHostReq1080 exHostEnvOk).events.head? =
      some (HostEvent.createSession 1920 1080 8294400 true) := by
  have h := auto_bitrate_formula exHostFresh exHostReq1080 exHostEnvOk
    (Or.inl rfl) (by decide)
  exact h.trans (by decide)

/-- C7 counterexample: a receive buffer holding an unknown-type message
(payload_size 0) followed by a well-formed Ping is consumed whole: the loop
continues after sending one ErrorResponse but never answers the Ping,
whereas advancing by the declared payload size (the second conjunct) would
parse the Ping and answer it with a Pong. -/
theorem unknown_type_discards_buffer_counterexample :
    vsock_server_step exHostFresh (some (exUnknownMsg ++ exPingMsg))
      exHostEnvOk =
      some (exHostFresh, [HostEvent.sentError HELIX_ERR_INVALID_MSG]) ∧
    helix_frame_export_process_msg exHostFresh
      ((exUnknownMsg ++ exPingMsg).drop
        (headerSize + (decodeHeader (exUnknownMsg ++ exPingMsg)).payload_size))
      exHostEnvOk =
      ⟨HELIX_ERR_OK, exHostFresh, [HostEvent.sentPong 1]⟩ := by
  constructor
  · decide
  · decide

/-- C7 witness for the amended claim at a concrete unknown-type message. -/
theorem unknown_type_nonfatal_witness :
    vsock_server_step exHostFresh (some exUnknownMsg) exHostEnvOk =
      some (exHostFresh, [HostEvent.sentError HELIX_ERR_INVALID_MSG]) := by
  exact unknown_type_nonfatal exHostFresh exUnknownMsg exHostEnvOk (by decide)
    (by decide) (by decide) (by decide) (by decide) (by decide)

/-- C10 witness: a message shorter than a header reports InvalidMessage and
leaves the session fields unchanged. -/
theorem invalid_msg_preserves_session_witness :
    (helix_frame_export_process_msg exHostFresh [] exHostEnvOk).state.configured
      = exHostFresh.configured ∧
    (helix_frame_export_process_msg exHostFresh [] exHostEnvOk).state.width
      = exHostFresh.width ∧
    (helix_frame_export_process_msg exHostFresh [] exHostEnvOk).state.height
      = exHostFresh.height ∧
    (helix_frame_export_process_msg exHostFresh [] exHostEnvOk).state.bitrate
      = exHostFresh.bitrate ∧
    (helix_frame_export_process_msg exHostFresh [] exHostEnvOk).state.realtime
      = exHostFresh.realtime := by
  exact invalid_msg_preserves_session exHostFresh [] exHostEnvOk (by decide)

end Helix
